import Mathlib

/-!
Verification of the simulation core of the blastex 2D arcade shooter
(src/main.rs), shallowly embedded over an ordered field: the f32
arithmetic of the source is modelled exactly, by rational numbers where
the code is algebraic and by real numbers where it takes square roots.
Only the 2D data the source actually uses is kept: a transform is its 2D
translation plus the cosine and sine of its z-rotation (the source
builds rotations with Quat from_rotation_z, whose orientation-matrix
columns truncate to (cos, sin) and (-sin, cos); every in-game transform
has unit scale, and compute_matrix applied to the origin yields exactly
the translation, so centers are translations).  Entity despawn commands
are deferred and applied at a barrier after the pass, as bevy Commands
are; a repeated despawn of the same entity removes it once.
-/

namespace Blastex

/-- WINDOW_WIDTH constant from src/main.rs. -/
def WINDOW_WIDTH : ℚ := 1024

/-- WINDOW_HEIGHT constant from src/main.rs. -/
def WINDOW_HEIGHT : ℚ := 768

/-- SCALE constant from src/main.rs (an i32, cast to f32 where used). -/
def SCALE : ℚ := 2

/-- GAME_WIDTH = WINDOW_WIDTH / SCALE from src/main.rs. -/
def GAME_WIDTH : ℚ := WINDOW_WIDTH / SCALE

/-- GAME_HEIGHT = WINDOW_HEIGHT / SCALE from src/main.rs. -/
def GAME_HEIGHT : ℚ := WINDOW_HEIGHT / SCALE

/-- BULLET_SPEED constant from src/main.rs. -/
def BULLET_SPEED : ℚ := 3

/-- The 2D restriction of a bevy Transform as used by the source: a
translation (tx, ty) and a z-rotation given by its cosine rc and sine rs. -/
structure Transform2 (K : Type) where
  tx : K
  ty : K
  rc : K
  rs : K
deriving DecidableEq, Repr

/-- Vec2 dot product. -/
def dot {K : Type} [LinearOrderedField K] (a b : K × K) : K :=
  a.1 * b.1 + a.2 * b.2

/-- The four candidate axes of check_obb_overlap: the truncated x and y
columns of the two orientation matrices, in source order. -/
def obb_axes {K : Type} [LinearOrderedField K] (t1 t2 : Transform2 K) :
    List (K × K) :=
  [(t1.rc, t1.rs), (-t1.rs, t1.rc), (t2.rc, t2.rs), (-t2.rs, t2.rc)]

/-- The loop body of check_obb_overlap, exactly as the source computes it:
projection i.x = half_extents i.x * axis.dot(orient i.x_axis), likewise for
y, center_distance = (center2 - center1).dot(axis), and the boolean the
source names overlap is
(|projection1.x| + |projection1.y| + |projection2.x| + |projection2.y|)
- |center_distance| < 0.0001. -/
def obb_axis_overlap {K : Type} [LinearOrderedField K]
    (t1 : Transform2 K) (h1 : K × K) (t2 : Transform2 K) (h2 : K × K)
    (axis : K × K) : Prop :=
  |h1.1 * dot axis (t1.rc, t1.rs)| + |h1.2 * dot axis (-t1.rs, t1.rc)|
    + |h2.1 * dot axis (t2.rc, t2.rs)| + |h2.2 * dot axis (-t2.rs, t2.rc)|
    - |dot (t2.tx - t1.tx, t2.ty - t1.ty) axis| < 1 / 10000

instance obb_axis_overlap.decidable {K : Type} [LinearOrderedField K]
    (t1 : Transform2 K) (h1 : K × K) (t2 : Transform2 K) (h2 : K × K)
    (axis : K × K) : Decidable (obb_axis_overlap t1 h1 t2 h2 axis) := by
  unfold obb_axis_overlap
  exact inferInstance

/-- check_obb_overlap from src/main.rs: the loop returns false on the first
axis whose overlap variable is false, and true once all four axes pass,
i.e. the result is true iff every candidate axis passes the per-axis test. -/
def check_obb_overlap {K : Type} [LinearOrderedField K]
    (t1 : Transform2 K) (h1 : K × K) (t2 : Transform2 K) (h2 : K × K) : Prop :=
  ∀ axis ∈ obb_axes t1 t2, obb_axis_overlap t1 h1 t2 h2 axis

instance check_obb_overlap.decidable {K : Type} [LinearOrderedField K]
    (t1 : Transform2 K) (h1 : K × K) (t2 : Transform2 K) (h2 : K × K) :
    Decidable (check_obb_overlap t1 h1 t2 h2) := by
  unfold check_obb_overlap
  exact List.decidableBAll _ _

/-- Modelled from the spec: the Separating Axis Theorem test the spec
describes for check_obb_overlap, over the same four candidate axes.  The
spec declares no overlap on an axis when the summed projected half-extents
are smaller than the center distance, with no overlap only when the gap
exceeds a small epsilon (1e-4 scale); all four axes must show overlap for
a collision. -/
def spec_sat_overlap {K : Type} [LinearOrderedField K]
    (t1 : Transform2 K) (h1 : K × K) (t2 : Transform2 K) (h2 : K × K) : Prop :=
  ∀ axis ∈ obb_axes t1 t2,
    |dot (t2.tx - t1.tx, t2.ty - t1.ty) axis|
      - (|h1.1 * dot axis (t1.rc, t1.rs)| + |h1.2 * dot axis (-t1.rs, t1.rc)|
        + |h2.1 * dot axis (t2.rc, t2.rs)| + |h2.2 * dot axis (-t2.rs, t2.rc)|)
      < 1 / 10000

/-- The axis-aligned interval test of the bullet-vs-enemy branch of
check_collisions, exactly as in the source (strict inequalities on both
axes around each center). -/
def aabb_hit {K : Type} [LinearOrderedField K] (p1 h1 p2 h2 : K × K) : Prop :=
  p1.1 + h1.1 > p2.1 - h2.1 ∧ p1.1 - h1.1 < p2.1 + h2.1
    ∧ p1.2 + h1.2 > p2.2 - h2.2 ∧ p1.2 - h1.2 < p2.2 + h2.2

instance aabb_hit.decidable {K : Type} [LinearOrderedField K]
    (p1 h1 p2 h2 : K × K) : Decidable (aabb_hit p1 h1 p2 h2) := by
  unfold aabb_hit
  exact inferInstance

/-- An entity as seen by the collision and despawn systems: a stable id
(bevy Entity), its Transform and its AABB half_size. -/
structure Ent (K : Type) where
  eid : ℕ
  transform : Transform2 K
  half_size : K × K
deriving DecidableEq, Repr

/-- The slice of the bevy world that check_collisions queries and mutates:
the Bullet, Mirror and Enemy entities, and the Score resource. -/
structure World (K : Type) where
  bullets : List (Ent K)
  mirrors : List (Ent K)
  enemies : List (Ent K)
  score : ℕ
deriving DecidableEq, Repr

/-- The despawn_recursive commands issued by one run of check_collisions,
in loop order: for each bullet, first every overlapping mirror (by
check_obb_overlap on the two transforms), then every overlapping enemy (by
the axis-aligned interval test on the translations); each hit queues the
bullet id and the hit entity id.  Commands may repeat an id. -/
def despawn_commands {K : Type} [LinearOrderedField K] (w : World K) : List ℕ :=
  w.bullets.flatMap fun b =>
    (w.mirrors.flatMap fun m =>
      if check_obb_overlap b.transform b.half_size m.transform m.half_size
      then [b.eid, m.eid] else [])
    ++ (w.enemies.flatMap fun e =>
      if aabb_hit (b.transform.tx, b.transform.ty) b.half_size
          (e.transform.tx, e.transform.ty) e.half_size
      then [b.eid, e.eid] else [])

/-- check_collisions from src/main.rs, with the deferred command barrier
applied: every entity whose id was queued for despawn is removed, each at
most once; nothing else in the world changes (in particular the Score
resource is not touched by this system). -/
def check_collisions {K : Type} [LinearOrderedField K] (w : World K) : World K :=
  { bullets := w.bullets.filter fun b => decide (b.eid ∉ despawn_commands w)
    mirrors := w.mirrors.filter fun m => decide (m.eid ∉ despawn_commands w)
    enemies := w.enemies.filter fun e => decide (e.eid ∉ despawn_commands w)
    score := w.score }

/-- The out-of-bounds condition of despawn_outside_world from src/main.rs,
exactly as written there: the entity is despawned when
position.x - half.x > GAME_WIDTH, or position.x + half.x < -GAME_WIDTH,
or position.y - half.y > GAME_HEIGHT, or position.y + half.y < -GAME_HEIGHT. -/
def despawn_outside_cond (pos half : ℚ × ℚ) : Prop :=
  pos.1 - half.1 > GAME_WIDTH ∨ pos.1 + half.1 < -GAME_WIDTH
    ∨ pos.2 - half.2 > GAME_HEIGHT ∨ pos.2 + half.2 < -GAME_HEIGHT

instance despawn_outside_cond.decidable (pos half : ℚ × ℚ) :
    Decidable (despawn_outside_cond pos half) := by
  unfold despawn_outside_cond
  exact inferInstance

/-- despawn_outside_world from src/main.rs over the AutoDespawn-tagged
entities, with the deferred command barrier applied: the survivors are the
entities whose box does not meet the out-of-bounds condition. -/
def despawn_outside_world (es : List (Ent ℚ)) : List (Ent ℚ) :=
  es.filter fun e =>
    decide (¬ despawn_outside_cond (e.transform.tx, e.transform.ty) e.half_size)

/-- Modelled from the spec: the box is entirely outside the rectangle of
half-width hw and half-height hh on some side, with a margin of one box
half-size, i.e. the box must be fully clear of the rectangle edge.  The
claim instantiates hw, hh with the play-field half-extents GAME_WIDTH / 2
and GAME_HEIGHT / 2. -/
def spec_box_fully_outside (hw hh : ℚ) (pos half : ℚ × ℚ) : Prop :=
  pos.1 - half.1 > hw ∨ pos.1 + half.1 < -hw
    ∨ pos.2 - half.2 > hh ∨ pos.2 + half.2 < -hh

/-- The Direction enum from src/main.rs. -/
inductive Direction where
  | left : Direction
  | right : Direction
deriving DecidableEq, Repr

/-- The direction_component match in spawn_bullet. -/
def direction_component : Direction → ℚ
  | Direction.left => -1
  | Direction.right => 1

/-- The bundle of components spawn_bullet attaches to a new bullet entity
(the sprite visuals and the z coordinate are dropped; lifetime is the
timer duration in seconds). -/
structure BulletSpawn where
  position : ℚ × ℚ
  half_size : ℚ × ℚ
  acceleration : ℚ × ℚ
  velocity : ℚ × ℚ
  damping : ℚ
  max_speed : ℚ
  lifetime : ℚ
  auto_despawn : Bool
deriving DecidableEq, Repr

/-- spawn_bullet from src/main.rs: a bullet at the firing ship edge
(position.x + half_size.x * direction_component), with velocity
(direction_component * BULLET_SPEED, 0), zero acceleration, zero damping,
max_speed 10, half-size (1, 1), a 5-second lifetime, and the Bullet and
AutoDespawn tags. -/
def spawn_bullet (t : Transform2 ℚ) (aabb : ℚ × ℚ) (dir : Direction) :
    BulletSpawn :=
  { position := (t.tx + aabb.1 * direction_component dir, t.ty)
    half_size := (1, 1)
    acceleration := (0, 0)
    velocity := (direction_component dir * BULLET_SPEED, 0)
    damping := 0
    max_speed := 10
    lifetime := 5
    auto_despawn := true }

/-- shoot from src/main.rs for one tick: when the fire key is pressed,
every Player entity spawns a left bullet then a right bullet; otherwise
nothing is spawned.  A player is its Transform and its AABB half_size. -/
def shoot (fire : Bool) (players : List (Transform2 ℚ × (ℚ × ℚ))) :
    List BulletSpawn :=
  if fire then
    players.flatMap fun p =>
      [spawn_bullet p.1 p.2 Direction.left, spawn_bullet p.1 p.2 Direction.right]
  else []

/-- The Movement component from src/main.rs, over the reals (the integrator
takes a square root). -/
structure Movement where
  acceleration : ℝ × ℝ
  velocity : ℝ × ℝ
  damping : ℝ
  max_speed : ℝ

/-- Vec2 length: the square root of the sum of squared components. -/
noncomputable def vlen (v : ℝ × ℝ) : ℝ :=
  Real.sqrt (v.1 ^ 2 + v.2 ^ 2)

/-- The first stage of update_movement: if acceleration is nonzero on
either axis, velocity += acceleration * 0.1, else velocity *= 1 - damping. -/
noncomputable def velocity_after_forces (m : Movement) : ℝ × ℝ :=
  if m.acceleration.1 ≠ 0 ∨ m.acceleration.2 ≠ 0 then
    (m.velocity.1 + m.acceleration.1 * 0.1, m.velocity.2 + m.acceleration.2 * 0.1)
  else
    ((1 - m.damping) * m.velocity.1, (1 - m.damping) * m.velocity.2)

/-- The second stage of update_movement: when the velocity length exceeds
max_speed, rescale componentwise as velocity / velocity_length * max_speed. -/
noncomputable def clamped_velocity (m : Movement) : ℝ × ℝ :=
  if vlen (velocity_after_forces m) > m.max_speed then
    ((velocity_after_forces m).1 / vlen (velocity_after_forces m) * m.max_speed,
     (velocity_after_forces m).2 / vlen (velocity_after_forces m) * m.max_speed)
  else velocity_after_forces m

/-- update_movement from src/main.rs for one entity: the two velocity
stages, then translation += velocity. -/
noncomputable def update_movement (m : Movement) (pos : ℝ × ℝ) :
    Movement × (ℝ × ℝ) :=
  ({ m with velocity := clamped_velocity m },
   (pos.1 + (clamped_velocity m).1, pos.2 + (clamped_velocity m).2))

/-- f32::clamp as used by clamp_inside_world (the source always calls it
with lo ≤ hi). -/
noncomputable def rust_clamp (x lo hi : ℝ) : ℝ :=
  min (max x lo) hi

/-- clamp_inside_world from src/main.rs for the player (which always has a
Movement component): clamp the translation so the box stays inside the
half-field on each axis, then zero the velocity component of any axis
whose clamped position sits at or beyond its limit. -/
noncomputable def clamp_inside_world (pos half : ℝ × ℝ) (m : Movement) :
    (ℝ × ℝ) × Movement :=
  ((rust_clamp pos.1 (-(((GAME_WIDTH : ℚ) : ℝ) / 2) + half.1)
      (((GAME_WIDTH : ℚ) : ℝ) / 2 - half.1),
    rust_clamp pos.2 (-(((GAME_HEIGHT : ℚ) : ℝ) / 2) + half.2)
      (((GAME_HEIGHT : ℚ) : ℝ) / 2 - half.2)),
   { m with velocity :=
      ((if rust_clamp pos.1 (-(((GAME_WIDTH : ℚ) : ℝ) / 2) + half.1)
              (((GAME_WIDTH : ℚ) : ℝ) / 2 - half.1)
            ≤ -(((GAME_WIDTH : ℚ) : ℝ) / 2) + half.1
          ∨ rust_clamp pos.1 (-(((GAME_WIDTH : ℚ) : ℝ) / 2) + half.1)
              (((GAME_WIDTH : ℚ) : ℝ) / 2 - half.1)
            ≥ ((GAME_WIDTH : ℚ) : ℝ) / 2 - half.1
        then 0 else m.velocity.1),
       (if rust_clamp pos.2 (-(((GAME_HEIGHT : ℚ) : ℝ) / 2) + half.2)
              (((GAME_HEIGHT : ℚ) : ℝ) / 2 - half.2)
            ≤ -(((GAME_HEIGHT : ℚ) : ℝ) / 2) + half.2
          ∨ rust_clamp pos.2 (-(((GAME_HEIGHT : ℚ) : ℝ) / 2) + half.2)
              (((GAME_HEIGHT : ℚ) : ℝ) / 2 - half.2)
            ≥ ((GAME_HEIGHT : ℚ) : ℝ) / 2 - half.2
        then 0 else m.velocity.2)) })

/-- The transform of a bullet for the overlap scenarios: identity rotation
at the origin. -/
noncomputable def bullet_tf : Transform2 ℝ := ⟨0, 0, 1, 0⟩

/-- The transform of a 45-degree-rotated mirror centered at the origin:
cos and sin of 45 degrees are both sqrt 2 / 2. -/
noncomputable def mirror45_tf : Transform2 ℝ := ⟨0, 0, Real.sqrt 2 / 2, Real.sqrt 2 / 2⟩

/-- A world with one bullet overlapping one enemy (and no mirror), for the
score scenario. -/
def hit_world : World ℚ :=
  { bullets := [⟨1, ⟨0, 0, 1, 0⟩, (1, 1)⟩]
    mirrors := []
    enemies := [⟨2, ⟨0, 0, 1, 0⟩, (16, 16)⟩]
    score := 0 }

/-- A world with one bullet overlapping two enemies at once, for the
double-despawn scenario. -/
def double_hit_world : World ℚ :=
  { bullets := [⟨1, ⟨0, 0, 1, 0⟩, (1, 1)⟩]
    mirrors := []
    enemies := [⟨2, ⟨0, 0, 1, 0⟩, (1, 1)⟩, ⟨3, ⟨0, 0, 1, 0⟩, (1, 1)⟩]
    score := 0 }

/-- An auto-despawn entity at x = 300 with half-size (1, 1): its box
[299, 301] is fully clear of the play-field edge at x = 256. -/
def near_edge_ent : Ent ℚ := ⟨7, ⟨300, 0, 1, 0⟩, (1, 1)⟩

/-- An auto-despawn entity at x = 600 with half-size (1, 1): its box is
beyond even x = GAME_WIDTH = 512. -/
def far_ent : Ent ℚ := ⟨9, ⟨600, 0, 1, 0⟩, (1, 1)⟩

/-- A movement state whose velocity (3, 4) exceeds its max_speed 1, with
no acceleration and no damping. -/
noncomputable def demo_movement : Movement := ⟨(0, 0), (3, 4), 0, 1⟩

/-- A movement state whose velocity (3, 0) exceeds its max_speed 1, with
no acceleration and no damping. -/
noncomputable def fast_movement : Movement := ⟨(0, 0), (3, 0), 0, 1⟩

/-- The player movement profile from setup, with rightward key
acceleration as set by update_player_movement. -/
noncomputable def player_edge_movement : Movement := ⟨(1, 0), (0, 0), 0.1, 2⟩

/-- When the two box centers coincide, every axis passes the SAT test the
spec describes, whatever the orientations and half-extents. -/
lemma spec_sat_overlap_same_center {K : Type} [LinearOrderedField K]
    (t1 t2 : Transform2 K) (h1 h2 : K × K)
    (hx : t2.tx = t1.tx) (hy : t2.ty = t1.ty) : spec_sat_overlap t1 h1 t2 h2 := by
  unfold spec_sat_overlap
  intro axis _
  have hz : dot (t2.tx - t1.tx, t2.ty - t1.ty) axis = 0 := by
    simp [dot, hx, hy]
  rw [hz, abs_zero]
  have a1 := abs_nonneg (h1.1 * dot axis (t1.rc, t1.rs))
  have a2 := abs_nonneg (h1.2 * dot axis (-t1.rs, t1.rc))
  have a3 := abs_nonneg (h2.1 * dot axis (t2.rc, t2.rs))
  have a4 := abs_nonneg (h2.2 * dot axis (-t2.rs, t2.rc))
  linarith

/-- Claim C1: for a bullet box of half-size (1, 1) centered at exactly the
same point as a 45-degree-rotated mirror box of half-size (8, 1), the SAT
test described by the spec shows projected overlap on all four axes, but
the code's check_obb_overlap returns false: its comparison is inverted
(it declares an axis non-overlapping exactly when the summed projected
half-extents exceed the projected center distance by the tolerance), so
the overlap the claim asserts is rejected.  This documents the code bug. -/
theorem check_obb_overlap_rejects_contained_bullet :
    spec_sat_overlap bullet_tf ((1 : ℝ), 1) mirror45_tf (8, 1)
      ∧ ¬ check_obb_overlap bullet_tf ((1 : ℝ), 1) mirror45_tf (8, 1) := by
  constructor
  · exact spec_sat_overlap_same_center _ _ _ _ rfl rfl
  · intro h
    have hmem : ((1 : ℝ), 0) ∈ obb_axes bullet_tf mirror45_tf := by
      simp [obb_axes, bullet_tf, mirror45_tf]
    have hax := h ((1 : ℝ), 0) hmem
    unfold obb_axis_overlap at hax
    simp [dot, bullet_tf, mirror45_tf] at hax
    linarith [abs_nonneg (8 * (Real.sqrt 2 / 2)), abs_nonneg (Real.sqrt 2 / 2)]

/-- Claim C3: two axis-aligned boxes of half-size (8, 1) and (1, 1) whose
centers are 20 units apart on the x-axis report no overlap, through
check_obb_overlap in either argument order and through the axis-aligned
interval test of check_collisions in either role. -/
theorem separated_boxes_report_no_overlap :
    ¬ check_obb_overlap (⟨0, 0, 1, 0⟩ : Transform2 ℚ) (8, 1) ⟨20, 0, 1, 0⟩ (1, 1)
    ∧ ¬ check_obb_overlap (⟨20, 0, 1, 0⟩ : Transform2 ℚ) (1, 1) ⟨0, 0, 1, 0⟩ (8, 1)
    ∧ ¬ aabb_hit ((0 : ℚ), 0) (8, 1) (20, 0) (1, 1)
    ∧ ¬ aabb_hit ((20 : ℚ), 0) (1, 1) (0, 0) (8, 1) := by
  refine ⟨?_, ?_, ?_, ?_⟩ <;>
    · simp [check_obb_overlap, obb_axes, obb_axis_overlap, dot, aabb_hit]
      norm_num

/-- The per-axis test only depends on the two boxes through symmetric
sums, and on the centers through the absolute projected distance, so it is
unchanged when the two boxes swap roles. -/
lemma obb_axis_overlap_comm {K : Type} [LinearOrderedField K]
    (t1 : Transform2 K) (h1 : K × K) (t2 : Transform2 K) (h2 : K × K)
    (axis : K × K) :
    obb_axis_overlap t1 h1 t2 h2 axis ↔ obb_axis_overlap t2 h2 t1 h1 axis := by
  unfold obb_axis_overlap
  have hd : |dot (t1.tx - t2.tx, t1.ty - t2.ty) axis|
      = |dot (t2.tx - t1.tx, t2.ty - t1.ty) axis| := by
    rw [show dot (t1.tx - t2.tx, t1.ty - t2.ty) axis
        = -(dot (t2.tx - t1.tx, t2.ty - t1.ty) axis) by simp [dot]; ring]
    exact abs_neg _
  constructor <;> intro h <;> linarith

/-- Claim C10: check_obb_overlap is symmetric in its two boxes -- the
candidate axis set is the same up to order and each per-axis test is
symmetric. -/
theorem check_obb_overlap_comm {K : Type} [LinearOrderedField K]
    (t1 : Transform2 K) (h1 : K × K) (t2 : Transform2 K) (h2 : K × K) :
    check_obb_overlap t1 h1 t2 h2 ↔ check_obb_overlap t2 h2 t1 h1 := by
  unfold check_obb_overlap obb_axes
  simp only [List.forall_mem_cons, List.forall_mem_nil, and_true]
  simp only [obb_axis_overlap_comm t1 h1 t2 h2]
  tauto

/-- Claim C2: check_collisions never touches the Score resource: for every
world its score is unchanged, including the concrete world where a bullet
overlaps an enemy, the hit registers and the enemy is despawned, yet the
score stays 0.  This documents the code bug: the spec says an enemy hit
increments the score counter, but no system in the source ever mutates
Score. -/
theorem check_collisions_score_unchanged :
    (∀ w : World ℚ, (check_collisions w).score = w.score)
    ∧ aabb_hit ((0 : ℚ), 0) (1, 1) (0, 0) (16, 16)
    ∧ (check_collisions hit_world).enemies = []
    ∧ (check_collisions hit_world).score = 0 := by
  refine ⟨fun w => rfl, by norm_num [aabb_hit], ?_, rfl⟩
  norm_num [check_collisions, despawn_commands, hit_world, aabb_hit]

/-- Claim C6 counterexample: in a world where one bullet overlaps two
enemies, one run of check_collisions despawns both enemies (and the
bullet), so a bullet already marked destroyed by its first hit is still
evaluated against, and despawns, a second target in the same pass. -/
theorem destroyed_bullet_still_despawns_second_target :
    aabb_hit ((0 : ℚ), 0) (1, 1) (0, 0) (1, 1)
    ∧ double_hit_world.enemies.length = 2
    ∧ (check_collisions double_hit_world).enemies = []
    ∧ (check_collisions double_hit_world).bullets = [] := by
  refine ⟨by norm_num [aabb_hit], rfl, ?_, ?_⟩ <;>
    norm_num [check_collisions, despawn_commands, double_hit_world, aabb_hit]

/-- Both participants of a bullet-enemy hit have their ids queued by
despawn_commands. -/
lemma eid_mem_despawn_commands {K : Type} [LinearOrderedField K]
    {w : World K} {b e : Ent K} (hb : b ∈ w.bullets) (he : e ∈ w.enemies)
    (hit : aabb_hit (b.transform.tx, b.transform.ty) b.half_size
      (e.transform.tx, e.transform.ty) e.half_size) :
    b.eid ∈ despawn_commands w ∧ e.eid ∈ despawn_commands w := by
  unfold despawn_commands
  constructor <;>
    · simp only [List.mem_flatMap, List.mem_append]
      refine ⟨b, hb, Or.inr ?_⟩
      refine ⟨e, he, ?_⟩
      rw [if_pos hit]
      simp

/-- Claim C6, amended: despawn commands are deferred to the end of the
pass, so a bullet marked destroyed is still evaluated against every
remaining candidate; every enemy that overlaps any bullet is despawned in
that pass, and the bullet itself is despawned (its repeated despawn
commands remove it once; no score is involved). -/
theorem deferred_despawn_removes_every_hit_pair {K : Type}
    [LinearOrderedField K] (w : World K) (b e : Ent K)
    (hb : b ∈ w.bullets) (he : e ∈ w.enemies)
    (hit : aabb_hit (b.transform.tx, b.transform.ty) b.half_size
      (e.transform.tx, e.transform.ty) e.half_size) :
    e ∉ (check_collisions w).enemies ∧ b ∉ (check_collisions w).bullets := by
  obtain ⟨hbid, heid⟩ := eid_mem_despawn_commands hb he hit
  constructor <;> intro hmem
  · have hkeep : e.eid ∉ despawn_commands w := by
      simpa using (List.mem_filter.1 hmem).2
    exact hkeep heid
  · have hkeep : b.eid ∉ despawn_commands w := by
      simpa using (List.mem_filter.1 hmem).2
    exact hkeep hbid

/-- Witness for the amended C6 theorem at the double-hit world: the second
enemy (id 3) overlaps the bullet and is gone after the pass. -/
theorem deferred_despawn_removes_every_hit_pair_witness :
    (⟨1, ⟨0, 0, 1, 0⟩, (1, 1)⟩ : Ent ℚ) ∈ double_hit_world.bullets
    ∧ (⟨3, ⟨0, 0, 1, 0⟩, (1, 1)⟩ : Ent ℚ) ∈ double_hit_world.enemies
    ∧ aabb_hit ((0 : ℚ), 0) (1, 1) (0, 0) (1, 1)
    ∧ (⟨3, ⟨0, 0, 1, 0⟩, (1, 1)⟩ : Ent ℚ) ∉ (check_collisions double_hit_world).enemies := by
  have hb : (⟨1, ⟨0, 0, 1, 0⟩, (1, 1)⟩ : Ent ℚ) ∈ double_hit_world.bullets := by
    simp [double_hit_world]
  have he : (⟨3, ⟨0, 0, 1, 0⟩, (1, 1)⟩ : Ent ℚ) ∈ double_hit_world.enemies := by
    simp [double_hit_world]
  have hit : aabb_hit ((0 : ℚ), 0) (1, 1) ((0 : ℚ), 0) (1, 1) := by
    norm_num [aabb_hit]
  exact ⟨hb, he, hit,
    (deferred_despawn_removes_every_hit_pair double_hit_world _ _ hb he hit).1⟩

/-- Claim C4 counterexample: the entity at x = 300 with half-size (1, 1)
has its box fully clear of the play-field edge (half-width GAME_WIDTH / 2
= 256), so the claim says it is destroyed, but the source's condition
compares against GAME_WIDTH itself and the out-of-bounds pass keeps it. -/
theorem despawn_outside_world_keeps_cleared_box :
    spec_box_fully_outside (GAME_WIDTH / 2) (GAME_HEIGHT / 2) ((300 : ℚ), 0) (1, 1)
    ∧ ¬ despawn_outside_cond ((300 : ℚ), 0) (1, 1)
    ∧ despawn_outside_world [near_edge_ent] = [near_edge_ent] := by
  refine ⟨?_, ?_, ?_⟩
  · norm_num [spec_box_fully_outside, GAME_WIDTH, GAME_HEIGHT, WINDOW_WIDTH,
      WINDOW_HEIGHT, SCALE]
  · norm_num [despawn_outside_cond, GAME_WIDTH, GAME_HEIGHT, WINDOW_WIDTH,
      WINDOW_HEIGHT, SCALE]
  · norm_num [despawn_outside_world, despawn_outside_cond, near_edge_ent,
      GAME_WIDTH, GAME_HEIGHT, WINDOW_WIDTH, WINDOW_HEIGHT, SCALE]

/-- Claim C4, amended: the out-of-bounds pass destroys an auto-despawn
entity exactly when its box is entirely outside the rectangle of
half-width GAME_WIDTH and half-height GAME_HEIGHT -- twice the play-field
half-extents, i.e. a full field half-extent beyond the edge plus the box
half-size, not just the box half-size; an entity whose box still touches
that larger rectangle (in particular one touching the field) is kept. -/
theorem despawn_outside_world_doubled_rect (es : List (Ent ℚ)) (e : Ent ℚ)
    (he : e ∈ es) :
    e ∉ despawn_outside_world es
      ↔ spec_box_fully_outside GAME_WIDTH GAME_HEIGHT
          (e.transform.tx, e.transform.ty) e.half_size := by
  unfold despawn_outside_world
  have hbridge : despawn_outside_cond (e.transform.tx, e.transform.ty) e.half_size
      ↔ spec_box_fully_outside GAME_WIDTH GAME_HEIGHT
          (e.transform.tx, e.transform.ty) e.half_size := Iff.rfl
  rw [← hbridge]
  constructor
  · intro hnot
    by_contra hncond
    refine hnot (List.mem_filter.2 ⟨he, ?_⟩)
    simpa using hncond
  · intro hcond hmem
    have hkeep : ¬ despawn_outside_cond (e.transform.tx, e.transform.ty) e.half_size := by
      simpa using (List.mem_filter.1 hmem).2
    exact hkeep hcond

/-- Witness for the amended C4 theorem at the entity beyond x = 512. -/
theorem despawn_outside_world_doubled_rect_witness :
    far_ent ∈ [far_ent]
    ∧ (far_ent ∉ despawn_outside_world [far_ent]
        ↔ spec_box_fully_outside GAME_WIDTH GAME_HEIGHT
            (far_ent.transform.tx, far_ent.transform.ty) far_ent.half_size) := by
  have h : far_ent ∈ [far_ent] := List.mem_singleton.2 rfl
  exact ⟨h, despawn_outside_world_doubled_rect [far_ent] far_ent h⟩

/-- Vec2 length is nonnegative. -/
lemma vlen_nonneg (v : ℝ × ℝ) : 0 ≤ vlen v := Real.sqrt_nonneg _

/-- Scaling both components scales the length by the absolute factor. -/
lemma vlen_smul (c x y : ℝ) : vlen (c * x, c * y) = |c| * vlen (x, y) := by
  unfold vlen
  have h : (c * x) ^ 2 + (c * y) ^ 2 = c ^ 2 * (x ^ 2 + y ^ 2) := by ring
  simp only
  rw [h, Real.sqrt_mul (sq_nonneg c), Real.sqrt_sq_eq_abs]

/-- Claim C5: for every Movement state with nonnegative max_speed and any
acceleration, damping and starting velocity, one step of the integrator
leaves the velocity length at most max_speed (hence at most max_speed
plus any nonnegative epsilon). -/
theorem update_movement_speed_clamped (m : Movement) (pos : ℝ × ℝ)
    (h : 0 ≤ m.max_speed) :
    vlen (update_movement m pos).1.velocity ≤ m.max_speed := by
  have hv : (update_movement m pos).1.velocity = clamped_velocity m := rfl
  rw [hv]
  unfold clamped_velocity
  by_cases hgt : vlen (velocity_after_forces m) > m.max_speed
  · rw [if_pos hgt]
    have hlen : 0 < vlen (velocity_after_forces m) := lt_of_le_of_lt h hgt
    have hrw : ((velocity_after_forces m).1 / vlen (velocity_after_forces m)
          * m.max_speed,
        (velocity_after_forces m).2 / vlen (velocity_after_forces m)
          * m.max_speed)
        = (m.max_speed / vlen (velocity_after_forces m)
            * (velocity_after_forces m).1,
           m.max_speed / vlen (velocity_after_forces m)
            * (velocity_after_forces m).2) := by
      simp only [Prod.mk.injEq]
      exact ⟨by ring, by ring⟩
    rw [hrw, vlen_smul]
    have hpair : vlen ((velocity_after_forces m).1, (velocity_after_forces m).2)
        = vlen (velocity_after_forces m) := rfl
    rw [hpair, abs_of_nonneg (div_nonneg h hlen.le),
      div_mul_cancel₀ _ (ne_of_gt hlen)]
  · rw [if_neg hgt]
    exact not_lt.1 hgt

/-- Witness for C5 at the state with velocity (3, 4) and max_speed 1. -/
theorem update_movement_speed_clamped_witness :
    (0 : ℝ) ≤ 1 ∧ vlen (update_movement demo_movement (0, 0)).1.velocity ≤ 1 :=
  ⟨by norm_num,
   update_movement_speed_clamped demo_movement (0, 0) (by norm_num [demo_movement])⟩

/-- Claim C8: the rescale branch of the integrator divides by the velocity
length only when that length is strictly positive: with max_speed
nonnegative, the branch condition (length exceeds max_speed) forces the
divisor to be strictly positive, so the step never divides by zero. -/
theorem rescale_divisor_positive (m : Movement)
    (h : 0 ≤ m.max_speed)
    (hbranch : vlen (velocity_after_forces m) > m.max_speed) :
    0 < vlen (velocity_after_forces m) :=
  lt_of_le_of_lt h hbranch

/-- Witness for C8 at the state with velocity (3, 0) and max_speed 1. -/
theorem rescale_divisor_positive_witness :
    (0 : ℝ) ≤ 1 ∧ vlen (velocity_after_forces fast_movement) > 1
    ∧ 0 < vlen (velocity_after_forces fast_movement) := by
  have h9 : Real.sqrt 9 = 3 := by
    rw [show (9 : ℝ) = 3 ^ 2 by norm_num,
      Real.sqrt_sq (by norm_num : (0 : ℝ) ≤ 3)]
  have hv : velocity_after_forces fast_movement = (3, 0) := by
    norm_num [velocity_after_forces, fast_movement]
  have hgt : vlen (velocity_after_forces fast_movement) > 1 := by
    rw [hv]
    unfold vlen
    norm_num [h9]
  exact ⟨by norm_num, hgt,
    rescale_divisor_positive fast_movement (by norm_num [fast_movement]) hgt⟩

/-- Claim C7: a player with half-size (16, 16) sitting at the right field
edge, with rightward acceleration, nonnegative rightward velocity and
positive max_speed, ends the tick (integration then bounds clamping) with
x position clamped to half the field width minus the box half-width, and
with its horizontal velocity zeroed in that same tick. -/
theorem player_clamped_at_right_edge (m : Movement) (pos : ℝ × ℝ)
    (hpos : pos.1 = ((GAME_WIDTH : ℚ) : ℝ) / 2 - 16)
    (hax : 0 < m.acceleration.1) (hvx : 0 ≤ m.velocity.1)
    (hms : 0 < m.max_speed) :
    (clamp_inside_world (update_movement m pos).2 (16, 16)
        (update_movement m pos).1).1.1
      = ((GAME_WIDTH : ℚ) : ℝ) / 2 - 16
    ∧ (clamp_inside_world (update_movement m pos).2 (16, 16)
        (update_movement m pos).1).2.velocity.1 = 0 := by
  have hW : ((GAME_WIDTH : ℚ) : ℝ) = 512 := by
    norm_num [GAME_WIDTH, WINDOW_WIDTH, SCALE]
  have hcond : m.acceleration.1 ≠ 0 ∨ m.acceleration.2 ≠ 0 :=
    Or.inl (ne_of_gt hax)
  have hv0 : (velocity_after_forces m).1
      = m.velocity.1 + m.acceleration.1 * 0.1 := by
    unfold velocity_after_forces
    rw [if_pos hcond]
  have hv0pos : 0 < (velocity_after_forces m).1 := by
    rw [hv0]
    have := mul_pos hax (by norm_num : (0 : ℝ) < 0.1)
    linarith
  have hvcpos : 0 < (clamped_velocity m).1 := by
    unfold clamped_velocity
    by_cases hgt : vlen (velocity_after_forces m) > m.max_speed
    · rw [if_pos hgt]
      have hlen : 0 < vlen (velocity_after_forces m) := lt_trans hms hgt
      exact mul_pos (div_pos hv0pos hlen) hms
    · rw [if_neg hgt]
      exact hv0pos
  have hx : (update_movement m pos).2.1 = pos.1 + (clamped_velocity m).1 := rfl
  have hlim : ((GAME_WIDTH : ℚ) : ℝ) / 2 - 16 ≤ (update_movement m pos).2.1 := by
    rw [hx, hpos]
    linarith
  have hclampval : rust_clamp (update_movement m pos).2.1
      (-(((GAME_WIDTH : ℚ) : ℝ) / 2) + 16) (((GAME_WIDTH : ℚ) : ℝ) / 2 - 16)
      = ((GAME_WIDTH : ℚ) : ℝ) / 2 - 16 := by
    unfold rust_clamp
    rw [max_eq_left (by rw [hW] at hlim ⊢; linarith)]
    exact min_eq_right hlim
  have hclamp1 : (clamp_inside_world (update_movement m pos).2 (16, 16)
      (update_movement m pos).1).1.1
      = rust_clamp (update_movement m pos).2.1
          (-(((GAME_WIDTH : ℚ) : ℝ) / 2) + 16)
          (((GAME_WIDTH : ℚ) : ℝ) / 2 - 16) := rfl
  have hveq : (clamp_inside_world (update_movement m pos).2 (16, 16)
      (update_movement m pos).1).2.velocity.1
      = if rust_clamp (update_movement m pos).2.1
            (-(((GAME_WIDTH : ℚ) : ℝ) / 2) + 16)
            (((GAME_WIDTH : ℚ) : ℝ) / 2 - 16)
          ≤ -(((GAME_WIDTH : ℚ) : ℝ) / 2) + 16
        ∨ rust_clamp (update_movement m pos).2.1
            (-(((GAME_WIDTH : ℚ) : ℝ) / 2) + 16)
            (((GAME_WIDTH : ℚ) : ℝ) / 2 - 16)
          ≥ ((GAME_WIDTH : ℚ) : ℝ) / 2 - 16
        then 0 else (update_movement m pos).1.velocity.1 := rfl
  refine ⟨hclamp1.trans hclampval, ?_⟩
  rw [hveq, hclampval, if_pos (Or.inr le_rfl)]

/-- Witness for C7 at the player profile from setup, at x = 240. -/
theorem player_clamped_at_right_edge_witness :
    ((240, 0) : ℝ × ℝ).1 = ((GAME_WIDTH : ℚ) : ℝ) / 2 - 16
    ∧ (0 : ℝ) < 1 ∧ (0 : ℝ) ≤ 0 ∧ (0 : ℝ) < 2
    ∧ (clamp_inside_world (update_movement player_edge_movement (240, 0)).2
        (16, 16) (update_movement player_edge_movement (240, 0)).1).1.1
      = ((GAME_WIDTH : ℚ) : ℝ) / 2 - 16
    ∧ (clamp_inside_world (update_movement player_edge_movement (240, 0)).2
        (16, 16) (update_movement player_edge_movement (240, 0)).1).2.velocity.1
      = 0 := by
  have hpos : ((240, 0) : ℝ × ℝ).1 = ((GAME_WIDTH : ℚ) : ℝ) / 2 - 16 := by
    norm_num [GAME_WIDTH, WINDOW_WIDTH, SCALE]
  have h := player_clamped_at_right_edge player_edge_movement (240, 0) hpos
    (by norm_num [player_edge_movement]) (by norm_num [player_edge_movement])
    (by norm_num [player_edge_movement])
  exact ⟨hpos, by norm_num, le_rfl, by norm_num, h.1, h.2⟩

/-- Pressing fire spawns two bullets for each player in the list. -/
lemma shoot_true_length (ps : List (Transform2 ℚ × (ℚ × ℚ))) :
    (shoot true ps).length = 2 * ps.length := by
  induction ps with
  | nil => rfl
  | cons p ps ih =>
    simp only [shoot, if_true] at ih ⊢
    simp only [List.flatMap_cons, List.length_append, List.length_cons,
      List.length_nil, ih]
    ring

/-- Holding fire over a sequence of ticks spawns two bullets per tick for
a single player. -/
lemma shoot_ticks_length (p : Transform2 ℚ × (ℚ × ℚ)) (l : List ℕ) :
    (l.flatMap fun _ => shoot true [p]).length = 2 * l.length := by
  induction l with
  | nil => rfl
  | cons n l ih =>
    simp only [List.flatMap_cons, List.length_append, ih, List.length_cons]
    simp [shoot]
    ring

/-- Claim C9: on a fire tick each player spawns exactly two bullets, the
first at the ship's left edge with velocity (-BULLET_SPEED, 0) and the
second at the ship's right edge with velocity (BULLET_SPEED, 0), both with
zero damping, zero acceleration, the auto-despawn tag and a 5-second
lifetime; with no fire nothing spawns, and N consecutive fire ticks spawn
exactly 2N bullets for one player. -/
theorem shoot_spawns_bullet_pair (t : Transform2 ℚ) (aabb : ℚ × ℚ)
    (ps : List (Transform2 ℚ × (ℚ × ℚ))) (N : ℕ) :
    shoot true [(t, aabb)]
      = [spawn_bullet t aabb Direction.left, spawn_bullet t aabb Direction.right]
    ∧ (shoot true ps).length = 2 * ps.length
    ∧ shoot false ps = []
    ∧ (spawn_bullet t aabb Direction.left).position = (t.tx - aabb.1, t.ty)
    ∧ (spawn_bullet t aabb Direction.right).position = (t.tx + aabb.1, t.ty)
    ∧ (spawn_bullet t aabb Direction.left).velocity = (-BULLET_SPEED, 0)
    ∧ (spawn_bullet t aabb Direction.right).velocity = (BULLET_SPEED, 0)
    ∧ (spawn_bullet t aabb Direction.left).damping = 0
    ∧ (spawn_bullet t aabb Direction.right).damping = 0
    ∧ (spawn_bullet t aabb Direction.left).acceleration = (0, 0)
    ∧ (spawn_bullet t aabb Direction.right).acceleration = (0, 0)
    ∧ (spawn_bullet t aabb Direction.left).auto_despawn = true
    ∧ (spawn_bullet t aabb Direction.right).auto_despawn = true
    ∧ (spawn_bullet t aabb Direction.left).lifetime = 5
    ∧ (spawn_bullet t aabb Direction.right).lifetime = 5
    ∧ ((List.range N).flatMap fun _ => shoot true [(t, aabb)]).length = 2 * N := by
  refine ⟨rfl, shoot_true_length ps, rfl, ?_, ?_, ?_, ?_, rfl, rfl, rfl, rfl,
    rfl, rfl, rfl, rfl, ?_⟩
  · simp only [spawn_bullet, direction_component, Prod.mk.injEq]
    exact ⟨by ring, trivial⟩
  · simp only [spawn_bullet, direction_component, Prod.mk.injEq]
    exact ⟨by ring, trivial⟩
  · simp only [spawn_bullet, direction_component, Prod.mk.injEq]
    exact ⟨by ring, trivial⟩
  · simp only [spawn_bullet, direction_component, Prod.mk.injEq]
    exact ⟨by ring, trivial⟩
  · rw [shoot_ticks_length (t, aabb) (List.range N), List.length_range]

end Blastex
